/-
  Verification of the bz-cogs `aiuser` regeneration subsystem.

  Shallow embedding of:
    - aiuser/utils/response_utils.py      (remove_patterns_from_response)
    - aiuser/utils/response_rating.py     (ResponseRating)
    - aiuser/settings/regeneration.py     (RegenerationSettings admin commands)
    - aiuser/response/regeneration.py     (RegenerateButton, reaction tracking)
    - aiuser/response/chat/response.py    (create_chat_response)

  Python strings are modelled as Lean `String` (code-point lists), Python
  slicing `s[:n]` as `take n` on the char list, Python dicts as ordered
  association lists with unique keys (insertion = replace-in-place or
  append, faithful to CPython dict semantics).  Regex application and the
  LLM pipeline are external effects and are passed in as function
  parameters; an exception raised by such an effect is modelled by
  `Except`/`Option` failure values.  ISO timestamps are modelled by their
  parse result: `none` for a string `fromisoformat` rejects, `some t`
  (an integer epoch second) for one it accepts.
-/
import Mathlib

/-- Python `str.strip(' \n')` character class. -/
def isStripChar (c : Char) : Bool := c == ' ' || c == '\n'

/-- Python `s.strip(' \n')`: drop leading and trailing spaces/newlines. -/
def pyStrip (s : String) : String :=
  ⟨((s.data.dropWhile isStripChar).reverse.dropWhile isStripChar).reverse⟩

/-- Python `s[:n]` (slice by code points). -/
def pyTake (s : String) (n : Nat) : String := ⟨s.data.take n⟩

/-- Python `'{authorname}' in pattern` (substring containment test). -/
def containsAuthorTok (p : String) : Bool :=
  (p.splitOn "{authorname}").length > 1

/--
The per-pattern loop of `remove_patterns_from_response`
(response_utils.py lines 36-44): each pattern is applied inside a
`try`/`except`; `applyOne p t = none` models `compile_and_apply` raising
(compile error, match error, or `asyncio.TimeoutError`), in which case the
accumulated text is kept and the loop continues with the next pattern.
-/
def apply_all (applyOne : String → String → Option String)
    (ps : List String) (t : String) : String :=
  ps.foldl (fun cleaned p => (applyOne p cleaned).getD cleaned) t

/--
`remove_patterns_from_response(ctx, config, response)` from
aiuser/utils/response_utils.py.  `patterns` is the guild's
`removelist_regexes` list, `botname` the bot display name, `authors` the
distinct recent author display names (a Python set, modelled as a list),
`applyOne` the `compile_and_apply` regex worker.
-/
def remove_patterns_from_response
    (applyOne : String → String → Option String)
    (patterns : List String) (botname : String) (authors : List String)
    (response : String) : String :=
  let ps := patterns.map (fun p => p.replace "{botname}" botname)
  let expanded := ps.foldl (fun acc p =>
    if containsAuthorTok p then
      acc ++ authors.map (fun a => p.replace "{authorname}" a)
    else acc ++ [p]) []
  apply_all applyOne expanded (pyStrip response)

/--
The new-content computation of `RegenerateButton._regenerate_with_model`
(regeneration.py lines 121-126): append the model-attribution suffix, and
if the combined content exceeds 2000 characters, rebuild it from the
first 1950 characters of the cleaned response, an ellipsis and the
suffix.
-/
def regen_new_content (cleaned name : String) : String :=
  let model_attribution := "\n\n*— " ++ name ++ "*"
  let new_content := cleaned ++ model_attribution
  if new_content.length > 2000 then
    pyTake cleaned 1950 ++ "..." ++ model_attribution
  else new_content

/--
A regeneration model record as stored in `config.regen_models`
(settings/regeneration.py): `{"name": ..., "model": ..., "endpoint": ...,
"default": ...}`.
-/
structure ModelConfig where
  name : String
  model : String
  endpoint : String
  default : Bool
deriving DecidableEq

/-- Python `s.lower()` (per-character lowercasing). -/
def pyLower (s : String) : String := ⟨s.data.map Char.toLower⟩

/-- Python `model.get("name", "").lower() == name.lower()`. -/
def nameMatches (n : String) (m : ModelConfig) : Bool :=
  pyLower m.name == pyLower n

/--
`regen_set_default(ctx, name)` from settings/regeneration.py lines
126-150, restricted to its effect on the persisted `regen_models` list:
when some entry's name matches case-insensitively, every matching entry
gets `default = True` and every other entry gets `default = False` and the
list is persisted; when no entry matches, the command returns before
`config.regen_models.set`, so the persisted list is unchanged.
-/
def regen_set_default (n : String) (l : List ModelConfig) : List ModelConfig :=
  if l.any (nameMatches n) then
    l.map (fun m =>
      if nameMatches n m then { m with default := true }
      else { m with default := false })
  else l

/--
`regen_add_model(ctx, name, model, endpoint, default)` from
settings/regeneration.py lines 55-99, restricted to its effect on the
persisted `regen_models` list: reject unknown endpoints and
case-insensitively duplicate names (persisted list unchanged); otherwise,
when `default` is set, clear `default` on every existing entry; append the
new entry.
-/
def regen_add_model (name mdl endpoint : String) (dflt : Bool)
    (l : List ModelConfig) : List ModelConfig :=
  if endpoint != "openai" && endpoint != "openrouter" then l
  else if l.any (nameMatches name) then l
  else
    (if dflt then l.map (fun m => { m with default := false }) else l)
      ++ [⟨name, mdl, endpoint, dflt⟩]

/-- Number of entries marked `default = True` in a model collection. -/
def defaultCount (l : List ModelConfig) : Nat :=
  l.countP (fun m => m.default)

/--
The shared mutable state touched by the generation call paths:
`cog.openai_client` (client identity, abstracted to a `Nat` id),
`messages_list.model` (the MessagesList's active model field), the visible
content of the original Discord message, and the view's
`selected_model_info`.
-/
structure CogState where
  openai_client : Nat
  model : String
  messageContent : String
  selected_model_info : Option ModelConfig
deriving DecidableEq

/-- The user-visible outcome of a `_regenerate_with_model` call. -/
inductive RegenOutcome where
  | noClient        -- "Failed to connect to endpoint"
  | failedGenerate  -- "Failed to generate response"
  | filteredOut     -- "Response was filtered out"
  | success         -- message edited, "Regenerated with ..."
  | errored         -- exception caught by the outer handler
deriving DecidableEq

/-- Python truthiness of `response` (`None` and `""` are falsy). -/
def truthyStr : Option String → Bool
  | none => false
  | some s => s != ""

/--
`RegenerateButton._regenerate_with_model(model_config, interaction)` from
response/regeneration.py lines 87-163, restricted to its effect on the
shared state.  `getClient` models `EndpointManager.get_client` (`none` =
no client for that endpoint); `pipeline` models `LLMPipeline.run()` on the
state current at the call (`Except.error` = exception raised, `ok none` =
`None` returned); `cleanFn` models the `remove_patterns_from_response`
call (`Except.error` = exception raised).  Control flow: if no client is
obtained, return with no state change; otherwise save
`cog.openai_client` and `messages_list.model`, swap both to the chosen
model/client, run the pipeline and (on truthy output) the cleaner, on a
non-empty cleaned response overwrite the message content (truncating per
`regen_new_content`) and set `selected_model_info`, and in the `finally`
block restore the saved client and model whatever happened.
-/
def regenerate_with_model (st : CogState) (mc : ModelConfig)
    (getClient : String → Option Nat)
    (pipeline : CogState → Except Unit (Option String))
    (cleanFn : String → Except Unit String) : CogState × RegenOutcome :=
  match getClient mc.endpoint with
  | none => (st, RegenOutcome.noClient)
  | some client =>
    let original_client := st.openai_client
    let original_model := st.model
    let swapped := { st with openai_client := client, model := mc.model }
    let inner : CogState × RegenOutcome :=
      match pipeline swapped with
      | Except.error _ => (swapped, RegenOutcome.errored)
      | Except.ok response =>
        if truthyStr response then
          match cleanFn (response.getD "") with
          | Except.error _ => (swapped, RegenOutcome.errored)
          | Except.ok cleaned =>
            if cleaned != "" then
              ({ swapped with
                  messageContent := regen_new_content cleaned mc.name,
                  selected_model_info := some mc }, RegenOutcome.success)
            else (swapped, RegenOutcome.filteredOut)
        else (swapped, RegenOutcome.failedGenerate)
    ({ inner.1 with openai_client := original_client, model := original_model },
     inner.2)

/--
`create_chat_response(cog, ctx, messages_list)` from
response/chat/response.py lines 90-152, restricted to its effect on the
shared state.  `randomEnabled` is `config.random_model_enabled`,
`randomModel` the result of `get_random_model` (already `none` on
failure), `getClient` models `cog.endpoint_manager.get_client`.  When
random mode is on and a client is obtained for the drawn model, both
`cog.openai_client` and `messages_list.model` are swapped; the `finally`
block restores only `cog.openai_client` (`original_client`) — the model
field is not saved or restored.  The `Except` result models the function
returning a `bool` or propagating an exception from the pipeline/cleaner.
-/
def create_chat_response (st : CogState) (randomEnabled : Bool)
    (randomModel : Option ModelConfig)
    (getClient : String → Option Nat)
    (pipeline : CogState → Except Unit (Option String))
    (cleanFn : String → Except Unit String) : CogState × Except Unit Bool :=
  let original_client := st.openai_client
  let afterSwap : CogState × Option ModelConfig :=
    if randomEnabled then
      match randomModel with
      | some rm =>
        match getClient rm.endpoint with
        | some client =>
          ({ st with openai_client := client, model := rm.model }, some rm)
        | none => (st, none)
      | none => (st, none)
    else (st, none)
  let st1 := afterSwap.1
  let result : Except Unit Bool :=
    match pipeline st1 with
    | Except.error e => Except.error e
    | Except.ok response =>
      if truthyStr response then
        match cleanFn (response.getD "") with
        | Except.error e => Except.error e
        | Except.ok cleaned =>
          if cleaned != "" then Except.ok true else Except.ok false
      else Except.ok false
  ({ st1 with openai_client := original_client }, result)

/--
A dict-shaped rating record as written by `ResponseRating.log_rating`
(response_rating.py lines 24-32).  Every field is optional so that legacy
records with missing keys are representable (`rating_data.get(k)` yields
`None` for a missing key).  The `timestamp` field holds the parse result
of the stored ISO string: `none` = key absent, `some none` = present but
`datetime.fromisoformat` raises, `some (some t)` = parses to epoch second
`t`.
-/
structure RatingRecord where
  user_id : Option Nat
  guild_id : Option Nat
  model : Option String
  endpoint : Option String
  rating : Option String
  timestamp : Option (Option Int)
  response_content : Option String
deriving DecidableEq

/-- A value stored in the `response_ratings` mapping: a dict-shaped
record, or any non-dict legacy value (`isinstance(rating_data, dict)`
false). -/
inductive RatingEntry where
  | record (r : RatingRecord)
  | nonRecord
deriving DecidableEq

/-- The persisted `response_ratings` mapping: an insertion-ordered dict
from string keys to entries. -/
def RatingsMap := List (String × RatingEntry)

/-- Python dict assignment `m[k] = v`: overwrite in place if the key is
present, else append (CPython insertion-order semantics). -/
def dict_insert (k : String) (v : RatingEntry) :
    List (String × RatingEntry) → List (String × RatingEntry)
  | [] => [(k, v)]
  | kv :: rest =>
    if kv.1 == k then (k, v) :: rest else kv :: dict_insert k v rest

/-- Python dict lookup `m.get(k)`. -/
def dict_get (k : String) (m : List (String × RatingEntry)) :
    Option RatingEntry :=
  (m.find? (fun kv => kv.1 == k)).map Prod.snd

/-- Python `response_content[:500] if response_content else None`
(`""` is falsy). -/
def truncate_content : Option String → Option String
  | none => none
  | some s => if s == "" then none else some (pyTake s 500)

/-- The `rating_data` dict built by `log_rating` (response_rating.py
lines 24-32); `now` is the parse value of `datetime.now().isoformat()`. -/
def make_rating_record (user_id guild_id : Nat) (model endpoint rating : String)
    (response_content : Option String) (now : Int) : RatingRecord :=
  { user_id := some user_id, guild_id := some guild_id, model := some model,
    endpoint := some endpoint, rating := some rating,
    timestamp := some (some now),
    response_content := truncate_content response_content }

/--
`ResponseRating.log_rating` (response_rating.py lines 15-40), restricted
to its effect on the stored mapping: build the record and assign it at
`str(message_id)` (the caller passes the composite string key, on which
`str` is the identity).
-/
def log_rating (message_id : String) (user_id guild_id : Nat)
    (model endpoint rating : String) (response_content : Option String)
    (now : Int) (ratings : List (String × RatingEntry)) :
    List (String × RatingEntry) :=
  dict_insert message_id
    (RatingEntry.record
      (make_rating_record user_id guild_id model endpoint rating
        response_content now))
    ratings

/-- `ResponseRating.get_rating(message_id)` (response_rating.py lines
42-49): `ratings.get(str(message_id))`. -/
def get_rating (message_id : Nat) (ratings : List (String × RatingEntry)) :
    Option RatingEntry :=
  dict_get (toString message_id) ratings

/-- The statistics dict returned by `get_model_stats`. -/
structure ModelStats where
  thumbs_up : Nat
  thumbs_down : Nat
  total : Nat
deriving DecidableEq

/--
`ResponseRating.get_model_stats(model, endpoint)` (response_rating.py
lines 51-82): iterate over the mapping's values, skip non-dict entries,
apply the optional model/endpoint filters, and count entries whose
`rating` field is exactly `"thumbs_up"` or `"thumbs_down"`.  A filter of
`none` models passing `None` (or any falsy value) for that argument.
-/
def get_model_stats (modelF endpointF : Option String)
    (ratings : List (String × RatingEntry)) : ModelStats :=
  let step : Nat × Nat → RatingEntry → Nat × Nat := fun acc e =>
    match e with
    | RatingEntry.nonRecord => acc
    | RatingEntry.record r =>
      if modelF.isSome && r.model != modelF then acc
      else if endpointF.isSome && r.endpoint != endpointF then acc
      else if r.rating == some "thumbs_up" then (acc.1 + 1, acc.2)
      else if r.rating == some "thumbs_down" then (acc.1, acc.2 + 1)
      else acc
  let counts := (ratings.map Prod.snd).foldl step (0, 0)
  ⟨counts.1, counts.2, counts.1 + counts.2⟩

/--
The retention decision of `cleanup_old_ratings` for one entry, stated as
a predicate (for the characterisation theorem): an entry survives exactly
when it is a dict-shaped record whose `timestamp` key is present and
either fails to parse or parses to a time strictly newer than the
cutoff.
-/
def keeps_rating (cutoff : Int) : RatingEntry → Bool
  | RatingEntry.record r =>
    match r.timestamp with
    | some none => true
    | some (some t) => t > cutoff
    | none => false
  | RatingEntry.nonRecord => false

/--
`ResponseRating.cleanup_old_ratings(days_to_keep)` (response_rating.py
lines 84-108), restricted to its effect on the stored mapping; `cutoff`
is `datetime.now().timestamp() - days_to_keep*24*60*60`.  The loop builds
a fresh dict `cleaned_ratings`, copying an entry only when
`isinstance(rating_data, dict)` holds, `"timestamp" in rating_data`
holds, and `fromisoformat` either raises (the `except` keeps it) or
yields a time strictly greater than the cutoff.
-/
def cleanup_old_ratings (cutoff : Int)
    (ratings : List (String × RatingEntry)) :
    List (String × RatingEntry) :=
  ratings.foldl (fun cleaned kv =>
    match kv.2 with
    | RatingEntry.record r =>
      match r.timestamp with
      | some none => cleaned ++ [kv]
      | some (some t) => if t > cutoff then cleaned ++ [kv] else cleaned
      | none => cleaned
    | RatingEntry.nonRecord => cleaned) []

/-- `REACTION_SENTIMENT_MAP` (response/regeneration.py lines 19-30). -/
def REACTION_SENTIMENT_MAP : List (String × String) :=
  [("👍", "positive"), ("👎", "negative"), ("❤️", "love"), ("😂", "funny"),
   ("😮", "surprising"), ("😢", "sad"), ("😡", "angry"), ("🤔", "thoughtful"),
   ("🎯", "accurate"), ("❓", "confusing")]

/-- A `cog.tracked_messages` entry (response/regeneration.py lines
299-305), minus the `rating_system` handle. -/
structure TrackedMsg where
  model : String
  endpoint : String
  content : Option String
  guild_id : Nat
deriving DecidableEq

/-- A raw reaction-add gateway payload, reduced to the fields
`handle_reaction_add` reads. -/
structure ReactionPayload where
  message_id : Nat
  user_id : Nat
  emoji : String
deriving DecidableEq

/-- The composite ledger key `f"{message_id}_{payload.user_id}_{emoji_str}"`
(response/regeneration.py line 334). -/
def rating_key (message_id user_id : Nat) (emoji : String) : String :=
  toString message_id ++ "_" ++ toString user_id ++ "_" ++ emoji

/--
`handle_reaction_add(cog, payload)` (response/regeneration.py lines
312-348), restricted to its effect on the stored ratings mapping:
untracked message, the bot's own reaction, or an emoji outside
`REACTION_SENTIMENT_MAP` produce no write; otherwise the sentiment record
is logged under the composite key.
-/
def handle_reaction_add (tracked : List (Nat × TrackedMsg)) (botId : Nat)
    (p : ReactionPayload) (now : Int)
    (ratings : List (String × RatingEntry)) : List (String × RatingEntry) :=
  match tracked.lookup p.message_id with
  | none => ratings
  | some info =>
    if p.user_id == botId then ratings
    else
      match REACTION_SENTIMENT_MAP.lookup p.emoji with
      | none => ratings
      | some sentiment =>
        log_rating (rating_key p.message_id p.user_id p.emoji)
          p.user_id info.guild_id info.model info.endpoint sentiment
          info.content now ratings

/-- Assigning a key in a dict yields exactly one entry under that key,
provided the dict's keys were duplicate-free. -/
theorem dict_insert_countP_key (k : String) (v : RatingEntry)
    (m : List (String × RatingEntry)) (hnd : (m.map Prod.fst).Nodup) :
    ((dict_insert k v m).countP (fun kv => kv.1 == k)) = 1 := by
  induction m with
  | nil => simp [dict_insert, List.countP_cons]
  | cons kv rest ih =>
    rw [List.map_cons, List.nodup_cons] at hnd
    by_cases h : (kv.1 == k) = true
    · simp only [dict_insert, if_pos h]
      rw [List.countP_cons]
      have hk : kv.1 = k := beq_iff_eq.mp h
      have hz : rest.countP (fun kv' => kv'.1 == k) = 0 := by
        rw [List.countP_eq_zero]
        intro a ha hcon
        exact hnd.1 (hk ▸ (beq_iff_eq.mp hcon) ▸ List.mem_map_of_mem Prod.fst ha)
      simp [hz]
    · simp only [dict_insert, if_neg h]
      rw [List.countP_cons, ih hnd.2]
      simp [h]

/-- Looking up the just-assigned key retrieves the assigned value. -/
theorem dict_get_insert_self (k : String) (v : RatingEntry)
    (m : List (String × RatingEntry)) :
    dict_get k (dict_insert k v m) = some v := by
  induction m with
  | nil => simp [dict_insert, dict_get, List.find?]
  | cons kv rest ih =>
    by_cases h : (kv.1 == k) = true
    · simp only [dict_insert, if_pos h]
      simp [dict_get, List.find?_cons]
    · simp only [dict_insert, if_neg h]
      rw [dict_get, List.find?_cons]
      simp only [h]
      exact ih

/-- Assigning a key leaves lookups of every other key unchanged. -/
theorem dict_get_insert_ne (k k' : String) (v : RatingEntry)
    (m : List (String × RatingEntry)) (hne : k' ≠ k) :
    dict_get k' (dict_insert k v m) = dict_get k' m := by
  induction m with
  | nil =>
    have h1 : (k == k') = false := beq_eq_false_iff_ne.mpr (Ne.symm hne)
    simp [dict_insert, dict_get, List.find?_cons, h1]
  | cons kv rest ih =>
    by_cases h : (kv.1 == k) = true
    · have hk : kv.1 = k := beq_iff_eq.mp h
      simp only [dict_insert, if_pos h]
      rw [dict_get, dict_get, List.find?_cons, List.find?_cons]
      have h1 : (k == k') = false := beq_eq_false_iff_ne.mpr (Ne.symm hne)
      have h2 : (kv.1 == k') = false := by
        rw [hk]; exact h1
      simp [h1, h2]
    · simp only [dict_insert, if_neg h]
      rw [dict_get, dict_get, List.find?_cons, List.find?_cons]
      by_cases h3 : (kv.1 == k') = true
      · simp [h3]
      · simp only [h3]
        exact ih

/-- Dict assignment preserves duplicate-freeness of the key list. -/
theorem dict_insert_keys_nodup (k : String) (v : RatingEntry)
    (m : List (String × RatingEntry)) (hnd : (m.map Prod.fst).Nodup) :
    ((dict_insert k v m).map Prod.fst).Nodup := by
  induction m with
  | nil => simp [dict_insert]
  | cons kv rest ih =>
    rw [List.map_cons, List.nodup_cons] at hnd
    by_cases h : (kv.1 == k) = true
    · have hk : kv.1 = k := beq_iff_eq.mp h
      simp only [dict_insert, if_pos h, List.map_cons, List.nodup_cons]
      exact ⟨hk ▸ hnd.1, hnd.2⟩
    · simp only [dict_insert, if_neg h, List.map_cons, List.nodup_cons]
      refine ⟨?_, ih hnd.2⟩
      intro hmem
      have hsub : ∀ (rest : List (String × RatingEntry)) (x : String),
          x ∈ (dict_insert k v rest).map Prod.fst →
          x = k ∨ x ∈ rest.map Prod.fst := by
        intro rest x hx
        induction rest with
        | nil => simp [dict_insert] at hx; exact Or.inl hx
        | cons kv' rest' ih' =>
          by_cases h' : (kv'.1 == k) = true
          · simp only [dict_insert, if_pos h', List.map_cons] at hx
            rcases List.mem_cons.mp hx with h1 | h1
            · exact Or.inl h1
            · exact Or.inr (List.mem_cons.mpr (Or.inr h1))
          · simp only [dict_insert, if_neg h', List.map_cons] at hx
            rcases List.mem_cons.mp hx with h1 | h1
            · exact Or.inr (List.mem_cons.mpr (Or.inl h1))
            · rcases ih' h1 with h2 | h2
              · exact Or.inl h2
              · exact Or.inr (List.mem_cons.mpr (Or.inr h2))
      rcases hsub rest kv.1 hmem with h1 | h1
      · exact absurd (beq_iff_eq.mpr h1) (by simpa using h)
      · exact hnd.1 h1

/-- Folding "append when the predicate holds" over a list builds the
filtered list. -/
theorem foldl_append_filter {α : Type} (p : α → Bool) (l : List α)
    (init : List α) :
    l.foldl (fun acc x => if p x then acc ++ [x] else acc) init
      = init ++ l.filter p := by
  induction l generalizing init with
  | nil => simp
  | cons x xs ih =>
    simp only [List.foldl_cons, List.filter_cons]
    by_cases h : p x
    · rw [if_pos h, ih]; simp [h]
    · rw [if_neg h, ih]; simp [h]

/-- Length of a string concatenation, by cases on the underlying char
lists. -/
theorem strLength_append (s t : String) : (s ++ t).length = s.length + t.length := by
  cases s with
  | mk a =>
    cases t with
    | mk b =>
      show (String.mk (a ++ b)).length = _
      simp [String.length_mk]

/-- Closed form of the length of `regen_new_content`. -/
theorem regen_new_content_length (cleaned name : String) :
    (regen_new_content cleaned name).length =
      if cleaned.length + (6 + name.length) > 2000
      then min 1950 cleaned.length + (9 + name.length)
      else cleaned.length + (6 + name.length) := by
  have h1 : ("\n\n*— " : String).length = 5 := rfl
  have h2 : ("..." : String).length = 3 := rfl
  have h3 : ("*" : String).length = 1 := rfl
  have h4 : (pyTake cleaned 1950).length = min 1950 cleaned.length := by
    rw [pyTake, String.length_mk, List.length_take, String.length_data]
  rw [regen_new_content]
  simp only [strLength_append, h1, h2, h3]
  by_cases h : 2000 < cleaned.length + (6 + name.length)
  · rw [if_pos (show cleaned.length + (5 + name.length + 1) > 2000 by omega),
        if_pos h]
    simp only [strLength_append, h1, h2, h3, h4]
    omega
  · rw [if_neg (show ¬ cleaned.length + (5 + name.length + 1) > 2000 by omega),
        if_neg h]
    simp only [strLength_append, h1, h2, h3]
    omega

/--
C1: For every regeneration attempt via
`RegenerateButton._regenerate_with_model`, whatever the outcome (success,
empty pipeline output, empty-after-cleaning output, or an exception raised
by the pipeline or the cleaning step), after the call completes the
MessagesList's `model` field and the cog's `openai_client` reference equal
the values they held immediately before the swap: the save/swap/restore
discipline always restores both.
-/
theorem regenerate_restores_model_and_client
    (st : CogState) (mc : ModelConfig) (getClient : String → Option Nat)
    (pipeline : CogState → Except Unit (Option String))
    (cleanFn : String → Except Unit String) :
    (regenerate_with_model st mc getClient pipeline cleanFn).1.openai_client
        = st.openai_client ∧
    (regenerate_with_model st mc getClient pipeline cleanFn).1.model
        = st.model := by
  unfold regenerate_with_model
  cases h : getClient mc.endpoint <;> simp

/--
C2 counterexample: with random-model mode enabled, a random model drawn,
a client available for its endpoint, and a successful pipeline run,
`create_chat_response` leaves the MessagesList's `model` field at the
random model's id instead of restoring the pre-call value: the claim that
both the client and the model field are restored is false.
-/
theorem create_chat_model_not_restored :
    (create_chat_response ⟨1, "A", "", none⟩ true
        (some ⟨"B", "modelB", "openai", false⟩)
        (fun _ => some 2)
        (fun _ => Except.ok (some "hello"))
        (fun s => Except.ok s)).1.model
      ≠ (⟨1, "A", "", none⟩ : CogState).model := by
  decide

/--
C2 (amended): after `create_chat_response` completes (returning true,
returning false, or propagating an exception), the cog's `openai_client`
reference equals its pre-call value — the `finally` block restores it
regardless of outcome — but the MessagesList's `model` field is not
restored: when a random model was swapped in (random mode on, model drawn,
client obtained), the field permanently retains the random model's id.
-/
theorem create_chat_restores_client_only
    (st : CogState) (re : Bool) (rm : Option ModelConfig)
    (gc : String → Option Nat)
    (pl : CogState → Except Unit (Option String))
    (cl : String → Except Unit String) :
    (create_chat_response st re rm gc pl cl).1.openai_client
        = st.openai_client ∧
    (∀ m c, rm = some m → gc m.endpoint = some c →
      (create_chat_response st true rm gc pl cl).1.model = m.model) := by
  constructor
  · rfl
  · intro m c hm hc
    subst hm
    simp [create_chat_response, hc]

/--
Witness for C2 (amended) at a concrete input: state ⟨1, "A"⟩, random
model "B" on endpoint "openai" with client 2; the client is restored and
the model field holds "modelB".
-/
theorem create_chat_restores_client_only_witness :
    (create_chat_response ⟨1, "A", "", none⟩ true
        (some ⟨"B", "modelB", "openai", false⟩) (fun _ => some 2)
        (fun _ => Except.ok (some "hello")) (fun s => Except.ok s)).1.openai_client
      = 1 ∧
    (create_chat_response ⟨1, "A", "", none⟩ true
        (some ⟨"B", "modelB", "openai", false⟩) (fun _ => some 2)
        (fun _ => Except.ok (some "hello")) (fun s => Except.ok s)).1.model
      = "modelB" := by
  refine ⟨(create_chat_restores_client_only ⟨1, "A", "", none⟩ true
      (some ⟨"B", "modelB", "openai", false⟩) (fun _ => some 2)
      (fun _ => Except.ok (some "hello")) (fun s => Except.ok s)).1, ?_⟩
  exact (create_chat_restores_client_only ⟨1, "A", "", none⟩ true
      (some ⟨"B", "modelB", "openai", false⟩) (fun _ => some 2)
      (fun _ => Except.ok (some "hello")) (fun s => Except.ok s)).2
      ⟨"B", "modelB", "openai", false⟩ 2 rfl rfl

/--
C6: with an empty configured pattern list,
`remove_patterns_from_response` returns the input text with leading and
trailing space/newline characters stripped, and changes nothing else
(identity law of the sanitizer).
-/
theorem remove_patterns_empty_list_id
    (applyOne : String → String → Option String)
    (botname : String) (authors : List String) (response : String) :
    remove_patterns_from_response applyOne [] botname authors response
      = pyStrip response := rfl

/--
C7: if applying one pattern fails (regex compile error, match error or
timeout — `applyOne p t = none`), that pattern's effect is skipped: the
accumulated text is kept unchanged and every subsequent pattern is still
applied to it in list order; one bad pattern never aborts the cleaning
pass.
-/
theorem apply_all_skips_failing_pattern
    (applyOne : String → String → Option String)
    (p : String) (ps : List String) (t : String)
    (h : applyOne p t = none) :
    apply_all applyOne (p :: ps) t = apply_all applyOne ps t := by
  simp [apply_all, h]

/--
Witness for C7 at a concrete input: an always-failing regex worker on
pattern list ["a", "b"]; the failing head pattern "a" is skipped and the
remaining pass over ["b"] proceeds from the unchanged text.
-/
theorem apply_all_skips_failing_pattern_witness :
    (fun (_ _ : String) => (none : Option String)) "a" "t" = none ∧
    apply_all (fun _ _ => none) ["a", "b"] "t"
      = apply_all (fun _ _ => none) ["b"] "t" :=
  ⟨rfl, apply_all_skips_failing_pattern (fun _ _ => none) "a" ["b"] "t" rfl⟩

/--
C8 counterexample: a 2000-character cleaned response with a 42-character
model name makes the combined content 2048 characters, so the truncation
branch runs; the rebuilt content (1950 + 3 + 48 characters) is 2001
characters long, exceeding the 2000-character platform ceiling — the
claim that the final message content never exceeds 2000 characters is
false.
-/
theorem regen_content_exceeds_ceiling :
    2000 < (regen_new_content ⟨List.replicate 2000 'a'⟩
        ⟨List.replicate 42 'b'⟩).length := by
  rw [regen_new_content_length]
  have hc : (String.mk (List.replicate 2000 'a')).length = 2000 := by
    rw [String.length_mk, List.length_replicate]
  have hn : (String.mk (List.replicate 42 'b')).length = 42 := by
    rw [String.length_mk, List.length_replicate]
  rw [hc, hn]
  norm_num

/--
C8 (amended): the content written to the original message is the cleaned
response followed by the model-attribution suffix whenever that combined
content is within the 2000-character ceiling; when it exceeds the
ceiling, the content is rebuilt from the first 1950 characters of the
cleaned response, an ellipsis marker, and the suffix, and the final
content stays within 2000 characters provided the model's display name is
at most 41 characters (the truncation reserves a fixed 50-character
budget — 1950 + 3 for the ellipsis + 6 for the suffix frame — so a longer
name overruns the ceiling by its excess length).
-/
theorem regen_content_bounded (cleaned name : String)
    (h : name.length ≤ 41) :
    (regen_new_content cleaned name).length ≤ 2000 ∧
    ((cleaned ++ ("\n\n*— " ++ name ++ "*")).length ≤ 2000 →
      regen_new_content cleaned name = cleaned ++ ("\n\n*— " ++ name ++ "*")) := by
  constructor
  · rw [regen_new_content_length]
    split
    · have : min 1950 cleaned.length ≤ 1950 := Nat.min_le_left _ _
      omega
    · omega
  · intro hfit
    rw [regen_new_content]
    exact if_neg (by omega)

/--
Witness for C8 (amended) at a concrete input: cleaned response "hi" and
model name "m" (1 ≤ 41 characters); the content is "hi\n\n*— m*" of
length 10 ≤ 2000.
-/
theorem regen_content_bounded_witness :
    ("m" : String).length ≤ 41 ∧
    (regen_new_content "hi" "m").length ≤ 2000 ∧
    regen_new_content "hi" "m" = "hi" ++ ("\n\n*— " ++ "m" ++ "*") := by
  refine ⟨by decide, (regen_content_bounded "hi" "m" (by decide)).1,
    (regen_content_bounded "hi" "m" (by decide)).2 (by decide)⟩

/--
C3 (the code evaluated at the failing input): logging one rating through
the positive ("👍") reaction path and one through the negative ("👎")
reaction path for model "m" and then querying `get_model_stats` filtered
by that model yields {0, 0, 0}, not the {1, 1, 2} the claim promises: the
reaction handler stores the sentiment labels "positive"/"negative" while
the aggregator counts only the labels "thumbs_up"/"thumbs_down", which no
writer ever produces.
-/
theorem stats_reaction_ratings_not_counted :
    get_model_stats (some "m") none
      (handle_reaction_add [(1, ⟨"m", "e", some "hi", 3⟩)] 99 ⟨1, 4, "👎"⟩ 0
        (handle_reaction_add [(1, ⟨"m", "e", some "hi", 3⟩)] 99 ⟨1, 2, "👍"⟩ 0 []))
      = ⟨0, 0, 0⟩ := by decide

/--
C4 counterexample: a mapping holding a non-dict entry and a dict record
with no timestamp field — both of which the claim says cleanup preserves
unchanged, and neither of which is an old parsed record — is not returned
unchanged by `cleanup_old_ratings`: the loop copies only entries passing
`isinstance(..., dict)` and `"timestamp" in ...`, so both entries are
dropped.
-/
theorem cleanup_drops_non_records :
    cleanup_old_ratings 0
      [("k", RatingEntry.nonRecord),
       ("j", RatingEntry.record
          ⟨some 1, some 2, some "m", some "e", some "positive", none, none⟩)]
      ≠ [("k", RatingEntry.nonRecord),
         ("j", RatingEntry.record
            ⟨some 1, some 2, some "m", some "e", some "positive", none, none⟩)] := by
  decide

/--
C4 (amended): `cleanup_old_ratings` keeps exactly (and in order) the
dict-shaped records whose timestamp field is present and either fails to
parse (conservative retention) or parses to a time strictly newer than
the cutoff; defensively, it also removes every entry that is not a
dict-shaped record and every record missing its timestamp field, and it
removes parsed records whose timestamp equals the cutoff exactly (not
only the strictly older ones).
-/
theorem cleanup_old_ratings_eq_filter (cutoff : Int)
    (ratings : List (String × RatingEntry)) :
    cleanup_old_ratings cutoff ratings
      = ratings.filter (fun kv => keeps_rating cutoff kv.2) := by
  have hstep : (fun (cleaned : List (String × RatingEntry)) kv =>
      match kv.2 with
      | RatingEntry.record r =>
        match r.timestamp with
        | some none => cleaned ++ [kv]
        | some (some t) => if t > cutoff then cleaned ++ [kv] else cleaned
        | none => cleaned
      | RatingEntry.nonRecord => cleaned)
      = (fun cleaned kv =>
          if keeps_rating cutoff kv.2 then cleaned ++ [kv] else cleaned) := by
    funext cleaned kv
    rcases kv with ⟨key, e⟩
    cases e with
    | record r =>
      rcases htv : r.timestamp with _ | tv
      · simp [keeps_rating, htv]
      · cases tv with
        | none => simp [keeps_rating, htv]
        | some t => simp [keeps_rating, htv]
    | nonRecord => simp [keeps_rating]
  rw [cleanup_old_ratings, hstep, foldl_append_filter]
  simp

/--
C5: for every stored collection whose names are case-insensitively
unique (the uniqueness `regen_add_model` enforces on creation), a
completed `regen_set_default` naming an existing model, or a completed
`regen_add_model` with default=true (valid endpoint, fresh name), leaves
at most one entry with default=true in the persisted collection — in
fact exactly one, because setting one entry's default clears default on
every other entry.
-/
theorem regen_default_at_most_one
    (l : List ModelConfig) (n nm mdl ep : String)
    (hnd : (l.map (fun m => pyLower m.name)).Nodup)
    (hmem : l.any (nameMatches n) = true)
    (hep : ep = "openai" ∨ ep = "openrouter")
    (hfresh : l.any (nameMatches nm) = false) :
    defaultCount (regen_set_default n l) ≤ 1 ∧
    defaultCount (regen_add_model nm mdl ep true l) ≤ 1 := by
  have hset : defaultCount (regen_set_default n l) = 1 := by
    rw [regen_set_default, if_pos hmem, defaultCount, List.countP_map]
    have hsimp : ((fun m : ModelConfig => m.default) ∘ fun m =>
        if nameMatches n m then { m with default := true }
        else { m with default := false }) = fun m => nameMatches n m := by
      funext m
      by_cases h : nameMatches n m <;> simp [h]
    rw [hsimp]
    have hcount : l.countP (fun m => nameMatches n m)
        = (l.map (fun m => pyLower m.name)).count (pyLower n) := by
      rw [List.count, List.countP_map]
      congr 1
    rw [hcount]
    have hle : (l.map (fun m => pyLower m.name)).count (pyLower n) ≤ 1 :=
      List.nodup_iff_count_le_one.mp hnd _
    have hge : 0 < (l.map (fun m => pyLower m.name)).count (pyLower n) := by
      rw [List.count_pos_iff]
      rcases List.any_eq_true.mp hmem with ⟨m, hm, hmatch⟩
      exact List.mem_map.mpr ⟨m, hm, beq_iff_eq.mp hmatch⟩
    omega
  have hadd : defaultCount (regen_add_model nm mdl ep true l) = 1 := by
    have hcond : (ep != "openai" && ep != "openrouter") = false := by
      rcases hep with h | h <;> subst h <;> simp
    rw [regen_add_model, hcond, if_neg (by simp), hfresh]
    simp [defaultCount, List.countP_append, List.countP_map, Function.comp]
  exact ⟨le_of_eq hset, le_of_eq hadd⟩

/--
Witness for C5 at a concrete input: the two-model collection
[Alpha (openai, not default), Beta (openrouter, default)], setting
default to "alpha" (case-insensitive match on Alpha) and adding a fresh
default model "Gamma" on endpoint "openai" each leave at most one default.
-/
theorem regen_default_at_most_one_witness :
    (([⟨"Alpha", "m1", "openai", false⟩,
       ⟨"Beta", "m2", "openrouter", true⟩] :
        List ModelConfig).map (fun m => pyLower m.name)).Nodup ∧
    ([⟨"Alpha", "m1", "openai", false⟩,
      ⟨"Beta", "m2", "openrouter", true⟩] :
        List ModelConfig).any (nameMatches "alpha") = true ∧
    ([⟨"Alpha", "m1", "openai", false⟩,
      ⟨"Beta", "m2", "openrouter", true⟩] :
        List ModelConfig).any (nameMatches "Gamma") = false ∧
    defaultCount (regen_set_default "alpha"
      [⟨"Alpha", "m1", "openai", false⟩,
       ⟨"Beta", "m2", "openrouter", true⟩]) ≤ 1 ∧
    defaultCount (regen_add_model "Gamma" "m3" "openai" true
      [⟨"Alpha", "m1", "openai", false⟩,
       ⟨"Beta", "m2", "openrouter", true⟩]) ≤ 1 := by
  refine ⟨by decide, by decide, by decide, ?_, ?_⟩
  · exact (regen_default_at_most_one
      [⟨"Alpha", "m1", "openai", false⟩, ⟨"Beta", "m2", "openrouter", true⟩]
      "alpha" "Gamma" "m3" "openai" (by decide) (by decide)
      (Or.inl rfl) (by decide)).1
  · exact (regen_default_at_most_one
      [⟨"Alpha", "m1", "openai", false⟩, ⟨"Beta", "m2", "openrouter", true⟩]
      "alpha" "Gamma" "m3" "openai" (by decide) (by decide)
      (Or.inl rfl) (by decide)).2

/-- The composite rating key is strictly longer than the bare message-id
string, hence distinct from it. -/
theorem rating_key_ne_bare (mid uid : Nat) (e : String) :
    toString mid ≠ rating_key mid uid e := by
  intro hcon
  have hlen := congrArg String.length hcon
  rw [rating_key] at hlen
  simp only [strLength_append] at hlen
  have h1 : ("_" : String).length = 1 := rfl
  rw [h1] at hlen
  omega

/--
C9: a "👍" reaction from a non-bot actor on a tracked message stores
exactly one rating record, with rating "positive", under the composite
key (messageId, actorId, emoji); repeating the identical reaction
overwrites that single record rather than creating a second one; and a
reaction on an untracked message, a reaction by the bot itself, or an
emoji outside the ten-entry sentiment vocabulary produce no ledger write.
-/
theorem reaction_logs_single_positive_record
    (tracked : List (Nat × TrackedMsg)) (botId mid uid : Nat)
    (info : TrackedMsg) (now now2 : Int)
    (ratings : List (String × RatingEntry))
    (hnd : (ratings.map Prod.fst).Nodup)
    (ht : tracked.lookup mid = some info)
    (hu : (uid == botId) = false) :
    ((handle_reaction_add tracked botId ⟨mid, uid, "👍"⟩ now ratings).countP
        (fun kv => kv.1 == rating_key mid uid "👍") = 1) ∧
    (dict_get (rating_key mid uid "👍")
        (handle_reaction_add tracked botId ⟨mid, uid, "👍"⟩ now ratings)
      = some (RatingEntry.record
          (make_rating_record uid info.guild_id info.model info.endpoint
            "positive" info.content now))) ∧
    ((handle_reaction_add tracked botId ⟨mid, uid, "👍"⟩ now2
        (handle_reaction_add tracked botId ⟨mid, uid, "👍"⟩ now ratings)).countP
        (fun kv => kv.1 == rating_key mid uid "👍") = 1) ∧
    (∀ (mid2 uid2 : Nat) (e2 : String) (rs : List (String × RatingEntry)),
      tracked.lookup mid2 = none →
      handle_reaction_add tracked botId ⟨mid2, uid2, e2⟩ now rs = rs) ∧
    (∀ (mid2 : Nat) (e2 : String) (rs : List (String × RatingEntry)),
      handle_reaction_add tracked botId ⟨mid2, botId, e2⟩ now rs = rs) ∧
    (∀ (mid2 uid2 : Nat) (e2 : String) (rs : List (String × RatingEntry)),
      REACTION_SENTIMENT_MAP.lookup e2 = none →
      handle_reaction_add tracked botId ⟨mid2, uid2, e2⟩ now rs = rs) := by
  have hs : REACTION_SENTIMENT_MAP.lookup "👍" = some "positive" := by decide
  have hr1 : handle_reaction_add tracked botId ⟨mid, uid, "👍"⟩ now ratings
      = dict_insert (rating_key mid uid "👍")
          (RatingEntry.record
            (make_rating_record uid info.guild_id info.model info.endpoint
              "positive" info.content now)) ratings := by
    simp [handle_reaction_add, ht, hu, hs, log_rating]
  have hr2 : handle_reaction_add tracked botId ⟨mid, uid, "👍"⟩ now2
        (handle_reaction_add tracked botId ⟨mid, uid, "👍"⟩ now ratings)
      = dict_insert (rating_key mid uid "👍")
          (RatingEntry.record
            (make_rating_record uid info.guild_id info.model info.endpoint
              "positive" info.content now2))
          (handle_reaction_add tracked botId ⟨mid, uid, "👍"⟩ now ratings) := by
    simp [handle_reaction_add, ht, hu, hs, log_rating]
  refine ⟨?_, ?_, ?_, ?_, ?_, ?_⟩
  · rw [hr1]
    exact dict_insert_countP_key _ _ _ hnd
  · rw [hr1]
    exact dict_get_insert_self _ _ _
  · rw [hr2, hr1]
    exact dict_insert_countP_key _ _ _
      (dict_insert_keys_nodup _ _ _ hnd)
  · intro mid2 uid2 e2 rs h
    simp [handle_reaction_add, h]
  · intro mid2 e2 rs
    cases htr : tracked.lookup mid2 with
    | none => simp [handle_reaction_add, htr]
    | some i => simp [handle_reaction_add, htr]
  · intro mid2 uid2 e2 rs h
    cases htr : tracked.lookup mid2 with
    | none => simp [handle_reaction_add, htr]
    | some i =>
      by_cases hb : (uid2 == botId) = true
      · simp [handle_reaction_add, htr, hb]
      · simp [handle_reaction_add, htr, hb, h]

/--
Witness for C9 at a concrete input: message 1 tracked for model "m",
bot id 99, actor 2, empty ledger; one record keyed "1_2_👍" with rating
"positive" results, and a repeat still yields one record.
-/
theorem reaction_logs_single_positive_record_witness :
    (([] : List (String × RatingEntry)).map Prod.fst).Nodup ∧
    ([(1, (⟨"m", "e", some "hi", 3⟩ : TrackedMsg))].lookup 1
      = some (⟨"m", "e", some "hi", 3⟩ : TrackedMsg)) ∧
    ((2 == 99) = false) ∧
    ((handle_reaction_add [(1, ⟨"m", "e", some "hi", 3⟩)] 99 ⟨1, 2, "👍"⟩ 0
        []).countP (fun kv => kv.1 == rating_key 1 2 "👍") = 1) ∧
    ((handle_reaction_add [(1, ⟨"m", "e", some "hi", 3⟩)] 99 ⟨1, 2, "👍"⟩ 5
        (handle_reaction_add [(1, ⟨"m", "e", some "hi", 3⟩)] 99 ⟨1, 2, "👍"⟩ 0
          [])).countP (fun kv => kv.1 == rating_key 1 2 "👍") = 1) := by
  refine ⟨by decide, by decide, by decide, ?_, ?_⟩
  · exact (reaction_logs_single_positive_record
      [(1, ⟨"m", "e", some "hi", 3⟩)] 99 1 2 ⟨"m", "e", some "hi", 3⟩ 0 5 []
      (by decide) (by decide) (by decide)).1
  · exact (reaction_logs_single_positive_record
      [(1, ⟨"m", "e", some "hi", 3⟩)] 99 1 2 ⟨"m", "e", some "hi", 3⟩ 0 5 []
      (by decide) (by decide) (by decide)).2.2.1

/--
C10: a rating logged through the reaction path is stored under the
composite string key "<messageId>_<userId>_<emoji>", not under the
message id alone: after the write, `get_rating` with the bare message id
still returns none (given no unrelated record sat under that bare key),
while the record is retrievable under the composite key.
-/
theorem reaction_rating_unreachable_by_message_id
    (tracked : List (Nat × TrackedMsg)) (botId mid uid : Nat)
    (info : TrackedMsg) (e sentiment : String) (now : Int)
    (ratings : List (String × RatingEntry))
    (ht : tracked.lookup mid = some info)
    (hu : (uid == botId) = false)
    (hs : REACTION_SENTIMENT_MAP.lookup e = some sentiment)
    (h0 : get_rating mid ratings = none) :
    get_rating mid
      (handle_reaction_add tracked botId ⟨mid, uid, e⟩ now ratings) = none ∧
    dict_get (rating_key mid uid e)
      (handle_reaction_add tracked botId ⟨mid, uid, e⟩ now ratings)
      = some (RatingEntry.record
          (make_rating_record uid info.guild_id info.model info.endpoint
            sentiment info.content now)) := by
  have hr1 : handle_reaction_add tracked botId ⟨mid, uid, e⟩ now ratings
      = dict_insert (rating_key mid uid e)
          (RatingEntry.record
            (make_rating_record uid info.guild_id info.model info.endpoint
              sentiment info.content now)) ratings := by
    simp [handle_reaction_add, ht, hu, hs, log_rating]
  constructor
  · rw [hr1, get_rating,
      dict_get_insert_ne _ _ _ _ (rating_key_ne_bare mid uid e)]
    exact h0
  · rw [hr1]
    exact dict_get_insert_self _ _ _

/--
Witness for C10 at a concrete input: message 1 tracked, actor 2, emoji
"👍", empty ledger; afterwards `get_rating 1` is none while key "1_2_👍"
holds the positive record.
-/
theorem reaction_rating_unreachable_by_message_id_witness :
    ([(1, (⟨"m", "e", some "hi", 3⟩ : TrackedMsg))].lookup 1
      = some (⟨"m", "e", some "hi", 3⟩ : TrackedMsg)) ∧
    ((2 == 99) = false) ∧
    (REACTION_SENTIMENT_MAP.lookup "👍" = some "positive") ∧
    (get_rating 1 ([] : List (String × RatingEntry)) = none) ∧
    (get_rating 1
      (handle_reaction_add [(1, ⟨"m", "e", some "hi", 3⟩)] 99 ⟨1, 2, "👍"⟩ 0 [])
      = none) := by
  refine ⟨by decide, by decide, by decide, by decide, ?_⟩
  exact (reaction_rating_unreachable_by_message_id
    [(1, ⟨"m", "e", some "hi", 3⟩)] 99 1 2 ⟨"m", "e", some "hi", 3⟩
    "👍" "positive" 0 [] (by decide) (by decide) (by decide) (by decide)).1
